import Mathlib

/-!
Verification of the vocab-wizard deck/model templating and note-generation
core (`src/anki.py`) against its specification.  The Python functions are
shallowly embedded as executable Lean definitions: machine integers become
`Nat` with explicit `% 2 ^ 32` where 32-bit overflow matters, `pandas`
frames become a `DF` structure of a column list plus row lists, and the
fallible template synthesizer returns `Except`.
-/

/-! ## Bytes and UTF-8 encoding (Python `str.encode()`) -/

/-- UTF-8 encoding of a single character, as a list of byte values. -/
def utf8EncodeChar (c : Char) : List Nat :=
  let n := c.toNat
  if n < 0x80 then [n]
  else if n < 0x800 then
    [0xC0 ||| (n >>> 6), 0x80 ||| (n &&& 0x3F)]
  else if n < 0x10000 then
    [0xE0 ||| (n >>> 12), 0x80 ||| ((n >>> 6) &&& 0x3F), 0x80 ||| (n &&& 0x3F)]
  else
    [0xF0 ||| (n >>> 18), 0x80 ||| ((n >>> 12) &&& 0x3F),
     0x80 ||| ((n >>> 6) &&& 0x3F), 0x80 ||| (n &&& 0x3F)]

/-- UTF-8 encoding of a string: Python `string.encode()`. -/
def utf8Encode (s : String) : List Nat :=
  s.data.flatMap utf8EncodeChar

/-! ## SHA-1 (Python `hashlib.sha1`)

A direct implementation of FIPS 180-1 over byte lists; 32-bit words are
`Nat` values kept below `2 ^ 32`. -/

/-- Left rotation of a 32-bit word. -/
def rotl32 (n x : Nat) : Nat :=
  ((x <<< n) ||| (x >>> (32 - n))) % 2 ^ 32

/-- Big-endian byte encoding of `n` in `k` bytes. -/
def beBytes : Nat → Nat → List Nat
  | 0, _ => []
  | k + 1, n => beBytes k (n >>> 8) ++ [n &&& 0xFF]

/-- SHA-1 message padding: append `0x80`, zero bytes to 56 mod 64, then the
bit length as a 64-bit big-endian integer. -/
def sha1Pad (msg : List Nat) : List Nat :=
  let len := msg.length
  let padLen := (55 + 64 - len % 64) % 64
  msg ++ [0x80] ++ List.replicate padLen 0 ++ beBytes 8 (8 * len)

/-- Group a byte list into big-endian 32-bit words. -/
def toWords : List Nat → List Nat
  | b0 :: b1 :: b2 :: b3 :: rest =>
      ((((b0 <<< 8) ||| b1) <<< 8 ||| b2) <<< 8 ||| b3) :: toWords rest
  | _ => []

/-- SHA-1 round function. -/
def sha1F (t b c d : Nat) : Nat :=
  if t < 20 then (b &&& c) ||| ((b ^^^ 0xFFFFFFFF) &&& d)
  else if t < 40 then b ^^^ c ^^^ d
  else if t < 60 then (b &&& c) ||| (b &&& d) ||| (c &&& d)
  else b ^^^ c ^^^ d

/-- SHA-1 round constants. -/
def sha1K (t : Nat) : Nat :=
  if t < 20 then 0x5A827999
  else if t < 40 then 0x6ED9EBA1
  else if t < 60 then 0x8F1BBCDC
  else 0xCA62C1D6

/-- Expand the 16-word block schedule by `k` further words. -/
def sha1Schedule : Nat → List Nat → List Nat
  | 0, ws => ws
  | k + 1, ws =>
      let n := ws.length
      let w := rotl32 1 ((ws.getD (n - 3) 0) ^^^ (ws.getD (n - 8) 0) ^^^
                         (ws.getD (n - 14) 0) ^^^ (ws.getD (n - 16) 0))
      sha1Schedule k (ws ++ [w])

/-- The 80 SHA-1 rounds over the paired round index and schedule word. -/
def sha1Rounds : List (Nat × Nat) → Nat × Nat × Nat × Nat × Nat → Nat × Nat × Nat × Nat × Nat
  | [], st => st
  | (t, w) :: rest, (a, b, c, d, e) =>
      let tmp := (rotl32 5 a + sha1F t b c d + e + sha1K t + w) % 2 ^ 32
      sha1Rounds rest (tmp, a, rotl32 30 b, c, d)

/-- Compress one 16-word block into the running hash state. -/
def sha1Compress (ws : List Nat) (h : Nat × Nat × Nat × Nat × Nat) :
    Nat × Nat × Nat × Nat × Nat :=
  let sched := sha1Schedule 64 ws
  let (h0, h1, h2, h3, h4) := h
  let (a, b, c, d, e) := sha1Rounds ((List.range 80).zip sched) (h0, h1, h2, h3, h4)
  ((h0 + a) % 2 ^ 32, (h1 + b) % 2 ^ 32, (h2 + c) % 2 ^ 32,
   (h3 + d) % 2 ^ 32, (h4 + e) % 2 ^ 32)

/-- Fold the compression function over `k` consecutive 64-byte blocks. -/
def sha1Blocks : Nat → List Nat → Nat × Nat × Nat × Nat × Nat → Nat × Nat × Nat × Nat × Nat
  | 0, _, h => h
  | k + 1, bytes, h => sha1Blocks k (bytes.drop 64) (sha1Compress (toWords (bytes.take 64)) h)

/-- SHA-1 digest of a byte list, read as a 160-bit big-endian unsigned
integer — exactly Python's `int(hash_object.hexdigest(), 16)`. -/
def sha1 (msg : List Nat) : Nat :=
  let padded := sha1Pad msg
  let (h0, h1, h2, h3, h4) :=
    sha1Blocks (padded.length / 64) padded
      (0x67452301, 0xEFCDAB89, 0x98BADCFE, 0x10325476, 0xC3D2E1F0)
  ((((h0 <<< 32) ||| h1) <<< 32 ||| h2) <<< 32 ||| h3) <<< 32 ||| h4

/-! ## `generate_integer_id` (src/anki.py lines 21-24) -/

/-- `generate_integer_id(string)`: SHA-1 of the UTF-8 bytes of the string,
interpreted as an unsigned integer, reduced modulo `10 ^ 10`. -/
def generate_integer_id (s : String) : Nat :=
  sha1 (utf8Encode s) % 10 ^ 10


/-! ## String utilities: `_str.strip_quotes` (src/anki.py lines 323-343)
and the note-guid normalization (line 30) -/

/-- The double-quote character. -/
def dqChar : Char := Char.ofNat 34

/-- The single-quote character. -/
def sqChar : Char := Char.ofNat 39

/-- Python `s.startswith(c)` for a one-character prefix. -/
def startsWithChar (s : String) (c : Char) : Bool :=
  s.data.head? = some c

/-- Python `s.endswith(c)` for a one-character suffix. -/
def endsWithChar (s : String) (c : Char) : Bool :=
  s.data.getLast? = some c

/-- Python slicing `s[1:-1]`: everything strictly between the first and the
last position (empty for strings of length at most one). -/
def sliceInner (s : String) : String :=
  String.mk ((s.data.drop 1).dropLast)

/-- `_str.strip_quotes`: drop one leading and one trailing quote, but only
when the string both starts and ends with the same quote character
(double or single). -/
def strip_quotes (s : String) : String :=
  if (startsWithChar s dqChar && endsWithChar s dqChar) ||
     (startsWithChar s sqChar && endsWithChar s sqChar) then
    sliceInner s
  else s

/-- Python `s.strip(chars)`: remove leading and trailing characters drawn
from the set `cs`. -/
def pyStripChars (cs : List Char) (l : List Char) : List Char :=
  ((l.dropWhile (cs.contains ·)).reverse.dropWhile (cs.contains ·)).reverse

/-- The seed `MyNote.guid` hashes: `self.fields[0].strip(' ".\'').lower()` —
the first field with spaces, double quotes, dots and single quotes stripped
from both ends, lower-cased. -/
def guidSeed (s : String) : String :=
  String.mk ((pyStripChars [Char.ofNat 32, dqChar, Char.ofNat 46, sqChar] s.data).map Char.toLower)

/-! ## Data model -/

/-- A card template: name plus question/answer markup (genanki dict
`\x7bname, qfmt, afmt\x7d`). -/
structure Template where
  name : String
  qfmt : String
  afmt : String
deriving DecidableEq, Repr

/-- A note model as built by `make_model`: deterministic integer id, name,
field-name schema, templates and css. -/
structure GModel where
  id : Nat
  name : String
  field_names : List String
  templates : List Template
  css : String
deriving DecidableEq, Repr

/-- A note as built by `make_notes` (`MyNote`): bound to one model, holding
ordered field values. -/
structure MyNote where
  model : GModel
  fields : List String
deriving DecidableEq, Repr

/-- Models the external `genanki.guid_for` collaborator.  Modelled from the
spec: the identifier is "derived by hashing a normalized form … of its first
field value"; the digest function itself lives outside the repository, so it
is modelled by the same SHA-1 content hash the repository uses elsewhere —
only its functional dependence on the argument matters for the claims. -/
def guid_for (s : String) : Nat :=
  sha1 (utf8Encode s)

/-- `MyNote.guid`: hash of the normalized first field value. -/
def MyNote.guid (n : MyNote) : Nat :=
  guid_for (guidSeed (n.fields.headD ""))

/-- A deck: deterministic id, name, and the ordered note sequence. -/
structure Deck where
  id : Nat
  name : String
  notes : List MyNote
deriving DecidableEq, Repr

/-- The input table: a header (column names) and the data rows.  Stands for
the `pandas.DataFrame` the Python code reads. -/
structure DF where
  columns : List String
  rows : List (List String)
deriving DecidableEq, Repr

/-- Python exception kinds the embedded code can raise. -/
inductive PyError where
  | valueError
  | attributeError
  | indexError
deriving DecidableEq, Repr

/-! ## Template synthesis (src/anki.py lines 62-199) -/

/-- `field(field_name, key, tag)`: render one mustache placeholder, with the
optional `type:`/`edit:` key prefix and the optional `div`/`h1` wrapper. -/
def fieldTmpl (field_name : String) (key : Option String) (tag : Option String) : String :=
  let fs :=
    if key = some "type" then "\x7b\x7btype:" ++ field_name ++ "\x7d\x7d"
    else if key = some "edit" then "\x7b\x7bedit:" ++ field_name ++ "\x7d\x7d"
    else "\x7b\x7b" ++ field_name ++ "\x7d\x7d"
  let fs :=
    if tag = some "div" then
      "<div class=\"" ++ field_name.toLower ++ "\">" ++ fs ++ "</div>"
    else fs
  let fs :=
    if tag = some "h1" then
      "<h1 class=\"one\"><span>" ++ fs ++ "</span></h1>"
    else fs
  fs

/-- `field(name)` with no key and no tag. -/
def fieldP (field_name : String) : String :=
  fieldTmpl field_name none none

/-- `df.columns[0]` (in-bounds access; theorems carry the bound). -/
def col0 (df : DF) : String := df.columns.getD 0 ""

/-- `df.columns[1]` (in-bounds access; theorems carry the bound). -/
def col1 (df : DF) : String := df.columns.getD 1 ""

/-- `df.Sound[0]`: the first row's value in the "Sound" column.  Raises
`AttributeError` when no "Sound" column exists, and an index error when the
frame has no rows. -/
def soundFirst (df : DF) : Except PyError String :=
  match df.columns.indexOf? "Sound" with
  | none => .error .attributeError
  | some i =>
    match df.rows.head? with
    | none => .error .indexError
    | some r => .ok (r.getD i "")

/-- `make_templates(df)`: the priority cascade over the marker columns
"Listen", "Q&A" and "Reverse", returning the model name and the one or two
card templates; raises when "Listen" is present and `df.Sound[0]` is empty
(or, via `df.Sound`, when the "Sound" column is missing). -/
def make_templates (df : DF) : Except PyError (String × List Template) :=
  let br := "<br>"
  let hr := "<hr>"
  let q := "Q: "
  let a := "A: "
  let listen := df.columns.contains "Listen"
  let qa := df.columns.contains "Q&A"
  let rev := df.columns.contains "Reverse"
  let model_name := "Basic Vanilla"
  let qftm1 := String.join [fieldP (col0 df), fieldP "Sound", br,
    fieldTmpl "Phonetics" none (some "div"), hr]
  let aftm1 := String.join [fieldP "FrontSide", fieldP (col1 df), hr,
    fieldTmpl "Remark" (some "edit") none, hr, fieldP "Image", hr, fieldP "More"]
  let (model_name, qftm1, aftm1) :=
    if listen then
      ("Basic Listen",
       String.join [fieldP "Sound", br],
       String.join [fieldP "FrontSide", fieldP (col0 df), br,
         fieldTmpl "Phonetics" none (some "div"), hr, fieldP (col1 df), hr,
         fieldTmpl "Remark" (some "edit") none, hr, fieldP "Image", hr, fieldP "More"])
    else (model_name, qftm1, aftm1)
  let (model_name, qftm1, aftm1) :=
    if qa then
      ("Basic Q&A",
       String.join [q, fieldP (col0 df), fieldP "Sound", br,
         fieldTmpl "Phonetics" none (some "div"), hr, fieldP "Q&A", br],
       String.join [fieldP "FrontSide", a, fieldP (col1 df), fieldP "Sound_Answer", br,
         fieldTmpl "Phonetics_Answer" none (some "div"), hr,
         fieldTmpl "Remark" (some "edit") none, hr, fieldP "Image", hr, fieldP "More"])
    else (model_name, qftm1, aftm1)
  let (model_name, qftm1, aftm1) :=
    if qa && listen then
      ("Basic Q&A Listen",
       String.join [q, fieldP "Sound", br, fieldP "Q&A", br],
       String.join [fieldP "FrontSide", fieldP (col0 df), br,
         fieldTmpl "Phonetics" none (some "div"), hr,
         a, fieldP (col1 df), fieldP "Sound_Answer", br,
         fieldTmpl "Phonetics_Answer" none (some "div"), hr,
         fieldTmpl "Remark" (some "edit") none, hr, fieldP "Image", hr, fieldP "More"])
    else (model_name, qftm1, aftm1)
  let model_name :=
    if rev then (if listen then "Basic Reverse Listen" else "Basic Reverse")
    else model_name
  let qftm2 := String.join [fieldP (col1 df), hr, fieldTmpl (col0 df) (some "type") none]
  let aftm2 := String.join [fieldP "FrontSide", fieldP "Sound", br,
    fieldTmpl "Phonetics" none (some "div"), hr,
    fieldTmpl "Remark" (some "edit") none, hr, fieldP "Image", hr, fieldP "More"]
  let templates :=
    [Template.mk "Card 1" qftm1 aftm1] ++
    (if rev then [Template.mk "Card 2" qftm2 aftm2] else [])
  if listen then
    match soundFirst df with
    | .error e => .error e
    | .ok s => if s = "" then .error .valueError else .ok (model_name, templates)
  else .ok (model_name, templates)

/-! ## `make_model` (src/anki.py lines 202-230) -/

/-- The fixed optional fields `make_model` appends when absent. -/
def field_names_to_add : List String :=
  ["Remark", "More", "Phonetics", "Sound", "Image"]

/-- The extended field-name schema: the input columns, followed by each
well-known optional field not already present. -/
def extendFieldNames (cols : List String) : List String :=
  field_names_to_add.foldl (fun acc fn => if acc.contains fn then acc else acc ++ [fn]) cols

/-- `make_model(df, style)`: synthesize templates, extend the field schema,
and build the model with id `generate_integer_id(model_name)`. -/
def make_model (df : DF) (style : String) : Except PyError GModel :=
  match make_templates df with
  | .error e => .error e
  | .ok (model_name, templates) =>
    .ok { id := generate_integer_id model_name
          name := model_name
          field_names := extendFieldNames df.columns
          templates := templates
          css := style }

/-! ## `make_notes` (src/anki.py lines 233-256) -/

/-- Pad a row to the header length with empty strings, then apply
`strip_quotes` to every value — the normalization a kept row undergoes on
its way into a note (src/anki.py lines 247 and 250). -/
def normalizeRow (header : List String) (row : List String) : List String :=
  (row ++ List.replicate (header.length - row.length) "").map strip_quotes

/-- Process one row: skip it (with a logged error carrying the offending
row) when it has more values than the header, otherwise append the note
built from the normalized row.  The accumulator is the deck's note
sequence, the successful-note count, and the logged error rows. -/
def processRow (header : List String) (model : GModel)
    (acc : List MyNote × Nat × List (List String)) (row : List String) :
    List MyNote × Nat × List (List String) :=
  let (notes, successful, errors) := acc
  if header.length < row.length then
    (notes, successful, errors ++ [row])
  else
    (notes ++ [MyNote.mk model (normalizeRow header row)], successful + 1, errors)

/-- The result of `make_notes`: the deck's note sequence, the
successful-note count, the total row count, and the logged error rows. -/
structure NotesResult where
  notes : List MyNote
  successful : Nat
  total : Nat
  errors : List (List String)
deriving DecidableEq, Repr

/-- `make_notes(df, deck, model)`: one note per row, appended to the deck
in row order; oversized rows are skipped and logged.  The header is
`df.attrs["field_names"]`, which `make_model` set to the extended field
schema of the input columns. -/
def make_notes (df : DF) (deck : Deck) (model : GModel) : Deck × NotesResult :=
  let header := extendFieldNames df.columns
  let res := df.rows.foldl (processRow header model) (deck.notes, 0, [])
  ({ deck with notes := res.1 },
   { notes := res.1, successful := res.2.1, total := df.rows.length, errors := res.2.2 })

/-! ## The archive: `make_package` (src/anki.py lines 259-265) and
`read_package` (lines 291-320)

`make_package` delegates serialization to the external genanki library.
Modelled from the spec: the archive is "an embedded relational database
with at minimum: a singleton catalog record storing a serialized mapping of
model-id → \x7bname, ordered field names, templates, style\x7d, and a note
table with columns (model-id reference, field values joined by a single
control-character separator, space-separated tag string)"; genanki joins a
note's field values with the `\x1f` control character and stores the tag
list `t` as the string `" " ++ " ".join(t) ++ " "` (empty tag list — the
build path passes none — gives two spaces). -/

/-- The field separator control character `\x1f`. -/
def fldSep : Char := Char.ofNat 31

/-- Join field values with the `\x1f` separator (genanki's note row). -/
def joinFlds : List (List Char) → List Char
  | [] => []
  | [x] => x
  | x :: y :: ys => x ++ fldSep :: joinFlds (y :: ys)

/-- Python `flds.split("\x1f")` on char lists, with an accumulator for the
current piece (in reverse). -/
def splitFldsAux : List Char → List Char → List (List Char)
  | [], acc => [acc.reverse]
  | c :: rest, acc =>
    if c = fldSep then acc.reverse :: splitFldsAux rest []
    else splitFldsAux rest (c :: acc)

/-- Python `flds.split("\x1f")`. -/
def splitFlds (l : List Char) : List (List Char) :=
  splitFldsAux l []

/-- The serialized archive contents: the model catalog and the note table
rows `(mid, flds, tags)`. -/
structure Package where
  models : List GModel
  noteRows : List (Nat × String × String)
deriving DecidableEq, Repr

/-- Modelled from the spec: `make_package(deck)` writes each note's model
into the catalog and one `(mid, flds, tags)` row per note, with fields
joined by `\x1f` and the empty tag list formatted as two spaces. -/
def make_package (deck : Deck) : Package :=
  { models := deck.notes.map (·.model)
    noteRows := deck.notes.map fun n =>
      (n.model.id, String.mk (joinFlds (n.fields.map String.data)), "  ") }

/-- The read-path model record (dataclass `Model`). -/
structure RModel where
  name : String
  field_names : List String
deriving DecidableEq, Repr

/-- The read-path note record (dataclass `Note`); tags are the elements of
Python's `set(tags.strip().split())`. -/
structure RNote where
  model : RModel
  field_contents : List String
  tags : List String
deriving DecidableEq, Repr

/-- The read-path collection (dataclass `Collection`). -/
structure Collection where
  models : List RModel
  notes : List RNote
deriving DecidableEq, Repr

/-- Catalog lookup `models[mid]`; `none` models the `KeyError`. -/
def findModel (models : List GModel) (mid : Nat) : Option RModel :=
  (models.find? fun m => m.id == mid).map fun m => RModel.mk m.name m.field_names

/-- Python `tags.strip().split()`: the whitespace-separated words of the
tag string (splitting on the space character and discarding empty pieces,
which also subsumes the leading strip). -/
def tagWords (s : String) : List String :=
  ((List.splitOnP (· == Char.ofNat 32) s.data).map String.mk).filter (· ≠ "")

/-- `read_package(path)`: rebuild the models from the catalog and the notes
from the note table, splitting field values on `\x1f` and tags on
whitespace. -/
def read_package (p : Package) : Option Collection :=
  (p.noteRows.mapM fun r =>
    (findModel p.models r.1).map fun m =>
      RNote.mk m ((splitFlds r.2.1.data).map String.mk) (tagWords r.2.2)).map
    fun notes => Collection.mk (p.models.map fun m => RModel.mk m.name m.field_names) notes


/-! ## Helper lemmas -/

/-- The quote-pair test of `strip_quotes`: both ends carry the same quote
character. -/
def quoteWrapped (s : String) : Bool :=
  (startsWithChar s dqChar && endsWithChar s dqChar) ||
  (startsWithChar s sqChar && endsWithChar s sqChar)

theorem strip_quotes_eq_ite (s : String) :
    strip_quotes s = if quoteWrapped s then sliceInner s else s := rfl

theorem strip_quotes_of_not_wrapped (s : String) (h : quoteWrapped s = false) :
    strip_quotes s = s := by
  rw [strip_quotes_eq_ite, h]
  simp

/-! ## C9 -/

/-- C9: `generate_integer_id` is a (deterministic) function computing the
SHA-1 digest of the UTF-8 bytes of the seed, read as an unsigned integer
and reduced modulo `10 ^ 10`, so its value always lies in `[0, 10 ^ 10)`. -/
theorem generate_integer_id_range_deterministic (s : String) :
    generate_integer_id s = sha1 (utf8Encode s) % 10 ^ 10 ∧
    generate_integer_id s < 10 ^ 10 := by
  exact ⟨rfl, Nat.mod_lt _ (by norm_num)⟩

/-! ## C4 -/

/-- C4 counterexample: `strip_quotes` is not idempotent — on a doubly
quote-wrapped input a second application strips a second pair. -/
theorem strip_quotes_not_idempotent :
    strip_quotes (strip_quotes "\"\"easy\"\"") ≠ strip_quotes "\"\"easy\"\"" := by
  decide

/-- C4 (amended): quote stripping removes a pair only when both ends carry
the same quote character, the three documented examples hold, and it is
idempotent whenever its result is not itself quote-wrapped again (a doubly
wrapped input such as `""easy""` defeats idempotence). -/
theorem strip_quotes_outermost_only (s : String)
    (h : quoteWrapped (strip_quotes s) = false) :
    strip_quotes (strip_quotes s) = strip_quotes s ∧
    strip_quotes "\"easy; simple\"" = "easy; simple" ∧
    strip_quotes "easy, \"simple\"" = "easy, \"simple\"" ∧
    strip_quotes "\"easy; \"simple\"\"" = "easy; \"simple\"" ∧
    (∀ t : String, quoteWrapped t = false → strip_quotes t = t) := by
  refine ⟨strip_quotes_of_not_wrapped _ h, by decide, by decide, by decide, ?_⟩
  intro t ht
  exact strip_quotes_of_not_wrapped t ht

/-- C4 witness: the amended statement at the first documented example. -/
theorem strip_quotes_outermost_only_witness :
    strip_quotes (strip_quotes "\"easy; simple\"") = strip_quotes "\"easy; simple\"" ∧
    strip_quotes "\"easy; simple\"" = "easy; simple" ∧
    strip_quotes "easy, \"simple\"" = "easy, \"simple\"" ∧
    strip_quotes "\"easy; \"simple\"\"" = "easy; \"simple\"" ∧
    (∀ t : String, quoteWrapped t = false → strip_quotes t = t) :=
  strip_quotes_outermost_only "\"easy; simple\"" (by decide)

/-! ## C10 -/

/-- C10: when a string starts and ends with the same quote character — even
when those are the same single character — exactly the first and last
positions are removed; in particular a lone double or single quote maps to
the empty string. -/
theorem strip_quotes_single_quote_char (s : String) (c : Char)
    (hc : c = dqChar ∨ c = sqChar)
    (h1 : s.data.head? = some c) (h2 : s.data.getLast? = some c) :
    (strip_quotes s).data = s.data.tail.dropLast ∧
    strip_quotes (String.mk [dqChar]) = "" ∧
    strip_quotes (String.mk [sqChar]) = "" := by
  refine ⟨?_, by decide, by decide⟩
  have hwrap : quoteWrapped s = true := by
    rcases hc with hc | hc <;>
      simp [quoteWrapped, startsWithChar, endsWithChar, h1, h2, hc]
  rw [strip_quotes_eq_ite, hwrap]
  simp [sliceInner, List.drop_one]

/-- C10 witness: the two-character string of two double quotes loses both,
and the lone-quote strings map to empty. -/
theorem strip_quotes_single_quote_char_witness :
    (strip_quotes (String.mk [dqChar, dqChar])).data =
      (String.mk [dqChar, dqChar]).data.tail.dropLast ∧
    strip_quotes (String.mk [dqChar]) = "" ∧
    strip_quotes (String.mk [sqChar]) = "" :=
  strip_quotes_single_quote_char (String.mk [dqChar, dqChar]) dqChar (Or.inl rfl)
    (by decide) (by decide)

/-! ## C6 -/

/-- C6: a note's identifier is a pure function of the normalized form
(ends stripped of spaces, quotes and dots, lower-cased) of its first field
value: equal normalized first fields give equal guids, whatever the other
fields and the model are. -/
theorem guid_pure_of_normalized_first_field (n1 n2 : MyNote)
    (h : guidSeed (n1.fields.headD "") = guidSeed (n2.fields.headD "")) :
    n1.guid = n2.guid := by
  unfold MyNote.guid
  rw [h]

/-- C6 witness: two notes with different raw first fields, different other
fields and different models, whose normalized first fields agree. -/
theorem guid_pure_witness :
    (MyNote.mk (GModel.mk 0 "" [] [] "") ["Chat .", "cat"]).guid =
    (MyNote.mk (GModel.mk 1 "m" [] [] "x") ["\"chat\"", "dog", "more"]).guid :=
  guid_pure_of_normalized_first_field _ _ (by decide)

/-! ## C8 -/

/-- C8: a row no longer than the schema is never dropped: normalization
returns exactly schema-length many strings — the given values (quote
stripped) in their original positions, followed by empty strings in every
missing trailing position. -/
theorem normalizeRow_pads_preserves (header row : List String)
    (h : row.length ≤ header.length) :
    normalizeRow header row =
      row.map strip_quotes ++ List.replicate (header.length - row.length) "" ∧
    (normalizeRow header row).length = header.length := by
  constructor
  · unfold normalizeRow
    rw [List.map_append, List.map_replicate]
    have he : strip_quotes "" = "" := rfl
    rw [he]
  · unfold normalizeRow
    simp
    omega

/-- C8 witness: a one-value row against a three-field schema. -/
theorem normalizeRow_pads_witness :
    normalizeRow ["Front", "Back", "Sound"] ["\"chat\""] =
      ["\"chat\""].map strip_quotes ++ List.replicate (3 - 1) "" ∧
    (normalizeRow ["Front", "Back", "Sound"] ["\"chat\""]).length = 3 := by
  have h := normalizeRow_pads_preserves ["Front", "Back", "Sound"] ["\"chat\""] (by decide)
  simpa using h

/-! ## C7 -/

/-- C7: a row with more values than the schema has fields is skipped
entirely: the deck's note sequence and the successful-note count are
unchanged, an error carrying the offending row is logged, and the total row
count still counts every input row. -/
theorem oversized_row_skipped (header : List String) (model : GModel)
    (notes : List MyNote) (successful : Nat) (errors : List (List String))
    (row : List String) (h : header.length < row.length)
    (df : DF) (deck : Deck) (m : GModel) :
    processRow header model (notes, successful, errors) row =
      (notes, successful, errors ++ [row]) ∧
    (make_notes df deck m).2.total = df.rows.length := by
  constructor
  · simp [processRow, h]
  · rfl

/-- C7 witness: a four-value row against a three-field schema. -/
theorem oversized_row_skipped_witness :
    processRow ["A", "B", "C"] (GModel.mk 0 "" [] [] "")
        ([], 0, []) ["1", "2", "3", "4"] =
      ([], 0, [] ++ [["1", "2", "3", "4"]]) ∧
    (make_notes (DF.mk ["A"] [["x"], ["y"]]) (Deck.mk 0 "" [])
        (GModel.mk 0 "" [] [] "")).2.total =
      (DF.mk ["A"] [["x"], ["y"]]).rows.length :=
  oversized_row_skipped ["A", "B", "C"] (GModel.mk 0 "" [] [] "")
    [] 0 [] ["1", "2", "3", "4"] (by decide)
    (DF.mk ["A"] [["x"], ["y"]]) (Deck.mk 0 "" []) (GModel.mk 0 "" [] [] "")

/-! ## C2 -/

/-- C2: evaluating the build on a schema with "Listen" but no sound-bearing
column.  `df.Sound` raises `AttributeError` before the code's own
validation can raise the documented
`ValueError("Listen column requires Sound column")`; the documented error
is only reached when a "Sound" column exists and its first value is empty.
Either way no model is produced. -/
theorem listen_without_sound_attribute_error :
    make_templates (DF.mk ["Front", "Back", "Listen"] [["chat", "cat", "x"]]) =
      .error .attributeError ∧
    make_model (DF.mk ["Front", "Back", "Listen"] [["chat", "cat", "x"]]) "" =
      .error .attributeError ∧
    make_templates (DF.mk ["Front", "Back", "Listen", "Sound"]
        [["chat", "cat", "x", ""]]) =
      .error .valueError := by
  exact ⟨rfl, rfl, rfl⟩

/-! ## C5 -/

/-- C5 counterexample: two inputs with the identical field schema
(Front, Back, Listen, Sound) but different row data make `make_templates`
behave differently — one synthesizes templates, the other raises — so
template synthesis is not a pure function of the schema alone. -/
theorem make_templates_row_dependent :
    make_templates (DF.mk ["Front", "Back", "Listen", "Sound"]
        [["chat", "cat", "x", "chat.mp3"]]) ≠
    make_templates (DF.mk ["Front", "Back", "Listen", "Sound"]
        [["chat", "cat", "x", ""]]) := by
  intro h
  have h2 := congrArg Except.toOption h
  exact absurd h2 (by decide)

/-- C5 (amended): template synthesis is pure over schemas that do not
contain the "Listen" column: given the same columns, `make_templates`
returns the same model name and template strings regardless of row data.
(With "Listen" present the result additionally depends on the first row's
"Sound" value.) -/
theorem make_templates_pure_without_listen (d1 d2 : DF)
    (hc : d1.columns = d2.columns)
    (hl : "Listen" ∉ d2.columns) :
    make_templates d1 = make_templates d2 := by
  have h0 : col0 d1 = col0 d2 := by unfold col0; rw [hc]
  have h1 : col1 d1 = col1 d2 := by unfold col1; rw [hc]
  unfold make_templates
  rw [hc, h0, h1]
  simp [hl]

/-- C5 witness: two plain Front/Back inputs with different rows synthesize
identically. -/
theorem make_templates_pure_witness :
    make_templates (DF.mk ["Front", "Back"] [["chat", "cat"]]) =
    make_templates (DF.mk ["Front", "Back"] [["chien", "dog"]]) :=
  make_templates_pure_without_listen _ _ rfl (by decide)

/-! ## C1 -/

/-- The structural template combination of a schema: which of the marker
columns "Listen", "Q&A" and "Reverse" are present. -/
def comb (df : DF) : Bool × Bool × Bool :=
  (df.columns.contains "Listen", df.columns.contains "Q&A", df.columns.contains "Reverse")

/-- The model name the `make_templates` cascade assigns to each marker-column
combination (read off the cascade: "Reverse" wins last and ignores "Q&A"). -/
def nameOfComb : Bool × Bool × Bool → String
  | (l, q, r) =>
    if r then (if l then "Basic Reverse Listen" else "Basic Reverse")
    else if q && l then "Basic Q&A Listen"
    else if q then "Basic Q&A"
    else if l then "Basic Listen"
    else "Basic Vanilla"

/-- The model name of a synthesis result, when it succeeded. -/
def modelNameOf : Except PyError (String × List Template) → Option String
  | .ok p => some p.1
  | .error _ => none

/-- Whenever `make_templates` succeeds, the returned model name is
determined by the marker-column combination alone. -/
theorem make_templates_name (df : DF) (n : String) (ts : List Template)
    (h : make_templates df = .ok (n, ts)) :
    n = nameOfComb (comb df) := by
  unfold make_templates at h
  by_cases hl : "Listen" ∈ df.columns
  case neg =>
    by_cases hq : "Q&A" ∈ df.columns <;> by_cases hr : "Reverse" ∈ df.columns <;>
      simp [hl, hq, hr, comb, nameOfComb] at h ⊢ <;>
      first
      | exact h.1
      | exact h.1.symm
  case pos =>
    rcases hs : soundFirst df with e | s
    · by_cases hq : "Q&A" ∈ df.columns <;> by_cases hr : "Reverse" ∈ df.columns <;>
        simp [hl, hq, hr, hs] at h
    · by_cases he : s = ""
      · by_cases hq : "Q&A" ∈ df.columns <;> by_cases hr : "Reverse" ∈ df.columns <;>
          simp [hl, hq, hr, hs, he] at h
      · by_cases hq : "Q&A" ∈ df.columns <;> by_cases hr : "Reverse" ∈ df.columns <;>
          simp [hl, hq, hr, hs, he, comb, nameOfComb] at h ⊢ <;>
          first
          | exact h.1
          | exact h.1.symm

/-- The six marker-column combinations the specification lists as giving
distinct models: plain, listen, Q&A, Q&A+listen, reverse, reverse+listen. -/
def okCombs : List (Bool × Bool × Bool) :=
  [(false, false, false), (true, false, false), (false, true, false),
   (true, true, false), (false, false, true), (true, false, true)]

theorem okCombs_names_nodup : (okCombs.map nameOfComb).Nodup := by decide

set_option maxRecDepth 8000 in
theorem okCombs_ids_nodup :
    (okCombs.map fun c => generate_integer_id (nameOfComb c)).Nodup := by decide

/-- C1 counterexample: the Reverse combination and the Reverse+Q&A
combination are structurally different, yet `make_templates` gives both the
model name "Basic Reverse", so `make_model` derives the same model ID for
both. -/
theorem reverse_qa_same_model_name :
    modelNameOf (make_templates (DF.mk ["Front", "Back", "Reverse"]
        [["a", "b", ""]])) = some "Basic Reverse" ∧
    modelNameOf (make_templates (DF.mk ["Front", "Back", "Reverse", "Q&A"]
        [["a", "b", "", ""]])) = some "Basic Reverse" ∧
    (make_model (DF.mk ["Front", "Back", "Reverse"] [["a", "b", ""]]) "").toOption.map
        GModel.id =
    (make_model (DF.mk ["Front", "Back", "Reverse", "Q&A"]
        [["a", "b", "", ""]]) "").toOption.map GModel.id := by
  exact ⟨rfl, rfl, rfl⟩

/-- C1 (amended): over the combinations the specification lists — plain,
listen, Q&A, Q&A+listen, reverse, reverse+listen, excluding the
Reverse-with-Q&A conflict, which reuses the reverse names — structurally
different combinations give distinct model names, and the model IDs
`generate_integer_id` derives from those names do not collide. -/
theorem distinct_combos_distinct_model_ids (d1 d2 : DF) {n1 n2 : String}
    {t1 t2 : List Template}
    (h1 : make_templates d1 = .ok (n1, t1)) (h2 : make_templates d2 = .ok (n2, t2))
    (m1 : comb d1 ∈ okCombs) (m2 : comb d2 ∈ okCombs)
    (hne : comb d1 ≠ comb d2) :
    n1 ≠ n2 ∧ generate_integer_id n1 ≠ generate_integer_id n2 := by
  rw [make_templates_name d1 n1 t1 h1, make_templates_name d2 n2 t2 h2]
  constructor
  · intro he
    exact hne (List.inj_on_of_nodup_map okCombs_names_nodup m1 m2 he)
  · intro he
    exact hne (List.inj_on_of_nodup_map okCombs_ids_nodup m1 m2 he)

/-- C1 witness: the plain and listen combinations give distinct names and
distinct model IDs. -/
theorem distinct_combos_witness :
    "Basic Vanilla" ≠ "Basic Listen" ∧
    generate_integer_id "Basic Vanilla" ≠ generate_integer_id "Basic Listen" :=
  distinct_combos_distinct_model_ids
    (DF.mk ["Front", "Back"] [["a", "b"]])
    (DF.mk ["Front", "Back", "Listen", "Sound"] [["a", "b", "x", "s.mp3"]])
    rfl rfl (by decide) (by decide) (by decide)

/-! ## C3: round-trip lemmas -/

theorem splitFldsAux_no_sep (l : List Char) (acc : List Char) (h : fldSep ∉ l) :
    splitFldsAux l acc = [acc.reverse ++ l] := by
  induction l generalizing acc with
  | nil => simp [splitFldsAux]
  | cons c rest ih =>
    rw [List.mem_cons] at h
    push_neg at h
    rw [splitFldsAux, if_neg (fun hc => h.1 hc.symm), ih _ h.2]
    simp

theorem splitFldsAux_sep (x : List Char) (rest acc : List Char) (h : fldSep ∉ x) :
    splitFldsAux (x ++ fldSep :: rest) acc =
      (acc.reverse ++ x) :: splitFldsAux rest [] := by
  induction x generalizing acc with
  | nil => simp [splitFldsAux]
  | cons c xs ih =>
    rw [List.mem_cons] at h
    push_neg at h
    rw [List.cons_append, splitFldsAux, if_neg (fun hc => h.1 hc.symm), ih _ h.2]
    simp

/-- Splitting on the field separator undoes joining, for a nonempty list of
separator-free fields (the shape genanki writes and `read_package` reads). -/
theorem splitFlds_joinFlds (ls : List (List Char)) (hne : ls ≠ [])
    (h : ∀ l ∈ ls, fldSep ∉ l) : splitFlds (joinFlds ls) = ls := by
  induction ls with
  | nil => exact absurd rfl hne
  | cons x ls ih =>
    cases ls with
    | nil =>
      rw [joinFlds, splitFlds, splitFldsAux_no_sep _ _ (h x (by simp))]
      simp
    | cons y ys =>
      rw [joinFlds, splitFlds, splitFldsAux_sep _ _ _ (h x (by simp))]
      rw [List.reverse_nil, List.nil_append]
      have hys := ih (by simp) (fun l hl => h l (List.mem_cons_of_mem _ hl))
      rw [splitFlds] at hys
      rw [hys]

theorem foldl_processRow_ok (header : List String) (model : GModel)
    (rows : List (List String)) (notes : List MyNote) (succ : Nat)
    (errs : List (List String))
    (h : ∀ r ∈ rows, r.length ≤ header.length) :
    rows.foldl (processRow header model) (notes, succ, errs) =
      (notes ++ rows.map (fun r => MyNote.mk model (normalizeRow header r)),
       succ + rows.length, errs) := by
  induction rows generalizing notes succ with
  | nil => simp
  | cons r rows ih =>
    have hr : ¬ header.length < r.length := not_lt.mpr (h r (by simp))
    rw [List.foldl_cons]
    have hstep : processRow header model (notes, succ, errs) r =
        (notes ++ [MyNote.mk model (normalizeRow header r)], succ + 1, errs) := by
      simp [processRow, hr]
    rw [hstep, ih _ _ (fun r2 hr2 => h r2 (List.mem_cons_of_mem _ hr2))]
    simp [List.append_assoc]
    omega

theorem extend_step_ne_nil (acc : List String) (fn : String) :
    (if acc.contains fn then acc else acc ++ [fn]) ≠ [] := by
  split
  case isTrue h =>
    intro hnil
    subst hnil
    simp at h
  case isFalse h => simp

theorem foldl_extend_pres (fns : List String) (acc : List String) (h : acc ≠ []) :
    fns.foldl (fun acc fn => if acc.contains fn then acc else acc ++ [fn]) acc ≠ [] := by
  induction fns generalizing acc with
  | nil => simpa using h
  | cons fn fns ih =>
    rw [List.foldl_cons]
    exact ih _ (extend_step_ne_nil acc fn)

/-- The extended field schema always contains at least the appended
well-known fields, so it is never empty. -/
theorem extendFieldNames_ne_nil (cols : List String) : extendFieldNames cols ≠ [] := by
  unfold extendFieldNames field_names_to_add
  rw [List.foldl_cons]
  exact foldl_extend_pres _ _ (extend_step_ne_nil cols "Remark")

/-- `strip_quotes` only ever removes characters, so it introduces no new
character into a field value. -/
theorem strip_quotes_mem_subset (s : String) (c : Char) (h : c ∉ s.data) :
    c ∉ (strip_quotes s).data := by
  rw [strip_quotes_eq_ite]
  split
  · intro hmem
    simp only [sliceInner] at hmem
    exact h (List.drop_subset 1 s.data (List.dropLast_subset _ hmem))
  · exact h

theorem normalizeRow_no_sep (header row : List String)
    (h : ∀ v ∈ row, fldSep ∉ v.data) :
    ∀ v ∈ normalizeRow header row, fldSep ∉ v.data := by
  intro v hv
  unfold normalizeRow at hv
  rw [List.mem_map] at hv
  obtain ⟨u, hu, rfl⟩ := hv
  rw [List.mem_append] at hu
  rcases hu with hu | hu
  · exact strip_quotes_mem_subset u _ (h u hu)
  · rw [List.eq_of_mem_replicate hu]
    exact strip_quotes_mem_subset "" _ (by simp)

theorem normalizeRow_ne_nil (header row : List String) (hh : header ≠ []) :
    normalizeRow header row ≠ [] := by
  have hl : 0 < header.length := List.length_pos.mpr hh
  apply List.ne_nil_of_length_pos
  simp [normalizeRow]
  omega

theorem mapM_option_eq_map {α β : Type} (f : α → Option β) (g : α → β)
    (l : List α) (h : ∀ a ∈ l, f a = some (g a)) :
    l.mapM f = some (l.map g) := by
  induction l with
  | nil => rfl
  | cons a l ih =>
    rw [List.mapM_cons, h a (by simp), ih (fun a2 ha => h a2 (List.mem_cons_of_mem _ ha))]
    rfl

theorem findModel_const (rows : List (List String)) (model : GModel)
    (h : rows ≠ []) :
    findModel (rows.map fun _ => model) model.id =
      some (RModel.mk model.name model.field_names) := by
  cases rows with
  | nil => exact absurd rfl h
  | cons r rs =>
    unfold findModel
    rw [List.map_cons, List.find?_cons_of_pos _ (by simp)]
    rfl

theorem string_mk_data (s : String) : String.mk s.data = s := by
  cases s
  rfl

theorem mapM_option_map_eq_map {α β γ : Type} (p : α → β) (f : β → Option γ)
    (g : α → γ) (l : List α) (h : ∀ a ∈ l, f (p a) = some (g a)) :
    (l.map p).mapM f = some (l.map g) := by
  induction l with
  | nil => rfl
  | cons a l ih =>
    rw [List.map_cons, List.mapM_cons, h a (by simp),
      ih (fun a2 ha => h a2 (List.mem_cons_of_mem _ ha))]
    rfl

/-- Reading back one serialized note row recovers the normalized field
values and an empty tag list. -/
theorem read_note_of_row (model : GModel) (header : List String)
    (r : List String) (rows : List (List String)) (hmem : r ∈ rows)
    (hh : header ≠ []) (hsepr : ∀ v ∈ r, fldSep ∉ v.data) :
    ((findModel (rows.map fun _ => model) model.id).map fun m =>
        RNote.mk m
          ((splitFlds (String.mk
            (joinFlds ((normalizeRow header r).map String.data))).data).map String.mk)
          (tagWords "  ")) =
      some (RNote.mk (RModel.mk model.name model.field_names)
        (normalizeRow header r) []) := by
  rw [findModel_const _ _ (List.ne_nil_of_mem hmem)]
  have hdata : (String.mk (joinFlds ((normalizeRow header r).map String.data))).data =
      joinFlds ((normalizeRow header r).map String.data) := rfl
  have hne : (normalizeRow header r).map String.data ≠ [] := by
    intro hcontra
    exact normalizeRow_ne_nil header r hh (List.map_eq_nil_iff.mp hcontra)
  have hnos : ∀ l ∈ (normalizeRow header r).map String.data, fldSep ∉ l := by
    intro l hl
    rw [List.mem_map] at hl
    obtain ⟨v, hv, rfl⟩ := hl
    exact normalizeRow_no_sep header r hsepr v hv
  have hsplit := splitFlds_joinFlds _ hne hnos
  have htags : tagWords "  " = [] := by decide
  simp only [Option.map_some, hdata, hsplit, htags, List.map_map]
  have hid : List.map (String.mk ∘ String.data) (normalizeRow header r) =
      List.map id (normalizeRow header r) :=
    List.map_congr_left (fun v _ => string_mk_data v)
  simp [hid]

/-- C3: building a deck from rows no longer than the extended field schema
(with separator-free cell values), packaging it, and reading it back yields
exactly one note per input row, in the original order, whose field values
are the normalized input values, with an empty tag set; and every input row
becomes a successful note. -/
theorem package_roundtrip (df : DF) (style : String) (deck0 : Deck) (model : GModel)
    (hm : make_model df style = .ok model)
    (hd : deck0.notes = [])
    (hrows : ∀ r ∈ df.rows, r.length ≤ (extendFieldNames df.columns).length)
    (hsep : ∀ r ∈ df.rows, ∀ v ∈ r, fldSep ∉ v.data) :
    ((read_package (make_package (make_notes df deck0 model).1)).map fun c =>
        c.notes.map fun n => n.field_contents) =
      some (df.rows.map (normalizeRow (extendFieldNames df.columns))) ∧
    ((read_package (make_package (make_notes df deck0 model).1)).map fun c =>
        c.notes.map fun n => n.tags) =
      some (List.replicate df.rows.length ([] : List String)) ∧
    (make_notes df deck0 model).2.successful = df.rows.length := by
  have hheader := extendFieldNames_ne_nil df.columns
  have hfold := foldl_processRow_ok (extendFieldNames df.columns) model df.rows
    deck0.notes 0 [] hrows
  rw [hd] at hfold
  have hnotes : (make_notes df deck0 model).1.notes =
      df.rows.map fun r =>
        MyNote.mk model (normalizeRow (extendFieldNames df.columns) r) := by
    simp [make_notes, hd, hfold]
  have hsucc : (make_notes df deck0 model).2.successful = df.rows.length := by
    simp [make_notes, hd, hfold]
  have hpkg : make_package (make_notes df deck0 model).1 =
      Package.mk
        (df.rows.map fun _ => model)
        (df.rows.map fun r =>
          (model.id,
           String.mk (joinFlds
             ((normalizeRow (extendFieldNames df.columns) r).map String.data)),
           "  ")) := by
    unfold make_package
    rw [hnotes, List.map_map, List.map_map]
    congr 1
  have hread : read_package (make_package (make_notes df deck0 model).1) =
      some (Collection.mk
        (df.rows.map fun _ => RModel.mk model.name model.field_names)
        (df.rows.map fun r =>
          RNote.mk (RModel.mk model.name model.field_names)
            (normalizeRow (extendFieldNames df.columns) r) [])) := by
    rw [hpkg]
    unfold read_package
    dsimp only
    rw [mapM_option_map_eq_map _ _
      (fun r => RNote.mk (RModel.mk model.name model.field_names)
        (normalizeRow (extendFieldNames df.columns) r) ([] : List String))
      df.rows
      (fun r hr => read_note_of_row model (extendFieldNames df.columns) r df.rows
        hr hheader (hsep r hr))]
    simp [List.map_map]
  refine ⟨?_, ?_, hsucc⟩
  · rw [hread, Option.map_some', List.map_map]
    exact congrArg some (List.map_congr_left fun r _ => rfl)
  · rw [hread, Option.map_some', List.map_map]
    refine congrArg some ?_
    have h1 : List.map
        ((fun (n : RNote) => n.tags) ∘ fun r =>
          RNote.mk (RModel.mk model.name model.field_names)
            (normalizeRow (extendFieldNames df.columns) r) []) df.rows =
        List.map (fun _ => ([] : List String)) df.rows :=
      List.map_congr_left fun r _ => rfl
    rw [h1, List.map_const']

/-- The example input of the specification scenario. -/
def dfW : DF := DF.mk ["Front", "Back"] [["chat", "cat"], ["chien", "dog"]]

/-- The model the build derives for the example input. -/
def modelW : GModel := (make_model dfW "").toOption.getD (GModel.mk 0 "" [] [] "")

/-- C3 witness: the two-row Front/Back example round-trips. -/
theorem package_roundtrip_witness :
    ((read_package (make_package (make_notes dfW (Deck.mk 1 "d" []) modelW).1)).map fun c =>
        c.notes.map fun n => n.field_contents) =
      some (dfW.rows.map (normalizeRow (extendFieldNames dfW.columns))) ∧
    ((read_package (make_package (make_notes dfW (Deck.mk 1 "d" []) modelW).1)).map fun c =>
        c.notes.map fun n => n.tags) =
      some (List.replicate dfW.rows.length ([] : List String)) ∧
    (make_notes dfW (Deck.mk 1 "d" []) modelW).2.successful = dfW.rows.length :=
  package_roundtrip dfW "" (Deck.mk 1 "d" []) modelW rfl rfl
    (by decide) (by decide)
